import Mathlib

/-!
# Verification of the Kismet alert tracker (`alertracker.cc`)

A shallow embedding of the alert-type registry, the dual-window rate
limiter (`Alertracker::CheckTimes`), the probe (`Alertracker::PotentialAlert`),
the dispatcher (`Alertracker::RaiseAlert`), the registration path
(`Alertracker::RegisterAlert`) and the time-cursor query
(`Alertracker::Httpd_CreateStreamResponse`, `last-time` branch).

Machine integers of the source (`int`, `time_t`) are modelled as `Int`;
references and map keys as `Nat`/`String`; `std::map` as an association
list with first-match lookup and in-place replacing insert.  All wall-clock
reads (`gettimeofday`, `time(0)`, `globalreg->timestamp`) are passed in as
an explicit `now : Int` parameter, since every operation reads the clock at
most once per field it stores.
-/

namespace Alertracker

/-- Modelled from the spec: the `alert_time_unit` enumeration lives in
`alertracker.h`, which is not part of the sources; the spec lists the
granularities fine-to-coarse as second, minute, hour, day, with day the
coarsest supported unit. -/
def sat_second : Nat := 0

/-- Modelled from the spec: minute granularity. -/
def sat_minute : Nat := 1

/-- Modelled from the spec: hour granularity. -/
def sat_hour : Nat := 2

/-- Modelled from the spec: day, the coarsest supported granularity. -/
def sat_day : Nat := 3

/-- Modelled from the spec: the `alert_time_unit_conv` table lives in
`alertracker.h` (not in the sources); the spec gives the granularity →
seconds mapping as second=1, minute=60, hour=3600, day=86400. -/
def alert_time_unit_conv (u : Nat) : Int :=
  if u = sat_second then 1
  else if u = sat_minute then 60
  else if u = sat_hour then 3600
  else 86400

/-- Modelled from the spec: `StrUpper` is a string utility outside the
sources; per the spec the header is "stored in a normalized (uppercase)
form". -/
def StrUpper (s : String) : String := String.mk (s.data.map Char.toUpper)

/-- Modelled from the spec: message severity flags (`MSGFLAG_*`) come from
headers outside the sources; only their distinctness matters here. -/
inductive MsgFlag where
  | error
  | alert
  | info
  deriving DecidableEq, Repr

/-- One `tracked_alert_definition` record (the class itself is declared in
`alertracker.h`, outside the sources; its fields and their meaning are taken
from the accessors used in `alertracker.cc` and from the spec's
AlertDefinition data model).  Counter and limit fields are C `int`s,
modelled as `Int`; times are `time_t` seconds, modelled as `Int`. -/
structure AlertDef where
  alert_ref : Nat
  header : String
  description : String
  limit_unit : Nat
  limit_rate : Int
  burst_unit : Nat
  limit_burst : Int
  phy : Int
  time_last : Int
  total_sent : Int
  burst_sent : Int
  deriving DecidableEq, Repr

/-- One `kis_alert_info` event record.  The four `mac_addr` subject
identifiers are opaque tokens (spec: "treated as opaque addressing
tokens"), modelled as `Nat`. -/
structure AlertEventInfo where
  header : String
  phy : Int
  tm : Int
  bssid : Nat
  source : Nat
  dest : Nat
  other : Nat
  channel : String
  text : String
  deriving DecidableEq, Repr

/-- First-match lookup in an association list (the `find` of `std::map`;
keys in the tracker's maps are unique). -/
def alookup {α β : Type} [DecidableEq α] : List (α × β) → α → Option β
  | [], _ => none
  | (k, v) :: t, a => if k = a then some v else alookup t a

/-- Replacing insert (`m[k] = v` of `std::map`): overwrites the value at an
existing key, otherwise appends the binding. -/
def ainsert {α β : Type} [DecidableEq α] : List (α × β) → α → β → List (α × β)
  | [], a, b => [(a, b)]
  | (k, v) :: t, a, b => if k = a then (a, b) :: t else (k, v) :: ainsert t a b

/-- The mutable state of the `Alertracker` object: the sequential ref
counter, the header → ref name map, the ref → definition map (the shared
definition records; `alert_defs_vec` holds the same shared pointers and is
not modelled separately), the bounded backlog, its capacity
(`num_backlog`, validated non-negative at startup), and the stream of
messages injected into the message bus (`_MSG`). -/
structure State where
  next_alert_id : Nat
  alert_name_map : List (String × Nat)
  alert_ref_map : List (Nat × AlertDef)
  alert_backlog : List AlertEventInfo
  num_backlog : Nat
  messages : List (String × MsgFlag)
  deriving DecidableEq, Repr

/-- `Alertracker::CheckTimes` (alertracker.cc:165-196): the rate-limit
decision on one definition at time `now`.  Returns the decision (1 = allow,
0 = deny) together with the (possibly counter-reset) definition record —
the source mutates `arec` through a shared pointer. -/
def CheckTimes (arec : AlertDef) (now : Int) : Int × AlertDef :=
  -- Is this alert rate-limited?  If not, shortcut out and send it
  if arec.limit_rate = 0 then
    (1, arec)
  -- If the last time we sent anything was longer than the main rate limit,
  -- then we reset back to empty
  else if arec.time_last < now - alert_time_unit_conv arec.limit_unit then
    (1, { arec with total_sent := 0, burst_sent := 0 })
  else
    -- If the last time we sent anything was longer than the burst rate, we
    -- can reset the burst to 0
    let arec :=
      if arec.time_last < now - alert_time_unit_conv arec.burst_unit then
        { arec with burst_sent := 0 }
      else arec
    -- If we're under the limit on both, we're good to go
    if arec.burst_sent < arec.limit_burst ∧ arec.total_sent < arec.limit_rate then
      (1, arec)
    else
      (0, arec)

/-- The commit step of `Alertracker::RaiseAlert` (alertracker.cc:241-244):
increment both counters and stamp the emission time. -/
def recordEmit (arec : AlertDef) (now : Int) : AlertDef :=
  { arec with
      burst_sent := arec.burst_sent + 1
      total_sent := arec.total_sent + 1
      time_last := now }

/-- `Alertracker::RegisterAlert` (alertracker.cc:111-154).  Returns the
assigned ref (or the -1 sentinel) and the updated state. -/
def RegisterAlert (st : State) (in_header in_description : String)
    (in_unit : Nat) (in_rate : Int) (in_burstunit : Nat) (in_burst : Int)
    (in_phy : Int) : Int × State :=
  -- Bail if this header is registered
  if (alookup st.alert_name_map in_header).isSome then
    (-1, { st with messages := st.messages ++
            [("Tried to re-register duplicate alert " ++ in_header, MsgFlag.error)] })
  else
    -- Make sure we're not going to overstep our range
    let in_burstunit := if in_burstunit > sat_day then sat_day else in_burstunit
    let in_unit := if in_unit > sat_day then sat_day else in_unit
    -- Bail if the rates are impossible
    if in_burstunit > in_unit then
      (-1, { st with messages := st.messages ++
              [("Failed to register alert " ++ in_header ++
                ", time unit for burst rate must be less than or equal to the time unit for the max rate",
                MsgFlag.error)] })
    else
      let arec : AlertDef :=
        { alert_ref := st.next_alert_id
          header := StrUpper in_header
          description := in_description
          limit_unit := in_unit
          limit_rate := in_rate
          burst_unit := in_burstunit
          limit_burst := in_burst
          phy := in_phy
          time_last := 0
          total_sent := 0
          burst_sent := 0 }
      ((arec.alert_ref : Int),
       { st with
          next_alert_id := st.next_alert_id + 1
          alert_name_map := ainsert st.alert_name_map arec.header arec.alert_ref
          alert_ref_map := ainsert st.alert_ref_map arec.alert_ref arec })

/-- `Alertracker::FetchAlertRef` (alertracker.cc:156-163). -/
def FetchAlertRef (st : State) (in_header : String) : Int :=
  match alookup st.alert_name_map in_header with
  | some r => (r : Int)
  | none => -1

/-- `Alertracker::PotentialAlert` (alertracker.cc:198-209): the probe.  The
definition record is shared, so the counter resets done by `CheckTimes`
land in the registry. -/
def PotentialAlert (st : State) (in_ref : Nat) (now : Int) : Int × State :=
  match alookup st.alert_ref_map in_ref with
  | none => (0, st)
  | some arec =>
      let r := CheckTimes arec now
      (r.1, { st with alert_ref_map := ainsert st.alert_ref_map in_ref r.2 })

/-- The `kis_alert_info` construction of `Alertracker::RaiseAlert`
(alertracker.cc:226-239). -/
def mkInfo (arec : AlertDef) (now : Int) (bssid source dest other : Nat)
    (channel text : String) : AlertEventInfo :=
  { header := arec.header
    phy := arec.phy
    tm := now
    bssid := bssid
    source := source
    dest := dest
    other := other
    channel := channel
    text := text }

/-- The backlog append with single-slot eviction of `Alertracker::RaiseAlert`
(alertracker.cc:246-250): push the event, then drop the oldest entry when
the size exceeds `num_backlog`. -/
def backlogPush (cap : Nat) (backlog : List AlertEventInfo)
    (info : AlertEventInfo) : List AlertEventInfo :=
  let b := backlog ++ [info]
  if b.length > cap then b.tail else b

/-- `Alertracker::RaiseAlert` (alertracker.cc:211-271).  Returns -1 for an
unknown ref, 0 when suppressed by `CheckTimes`, 1 when the event is
created.  The packet-attachment step (lines 253-265) touches only the
caller's packet, not the tracker state, and is not modelled. -/
def RaiseAlert (st : State) (in_ref : Nat) (now : Int)
    (bssid source dest other : Nat) (channel text : String) : Int × State :=
  match alookup st.alert_ref_map in_ref with
  | none => (-1, st)
  | some arec =>
      let c := CheckTimes arec now
      if c.1 ≠ 1 then
        (0, { st with alert_ref_map := ainsert st.alert_ref_map in_ref c.2 })
      else
        let info := mkInfo c.2 now bssid source dest other channel text
        let arec := recordEmit c.2 now
        (1, { st with
                alert_ref_map := ainsert st.alert_ref_map in_ref arec
                alert_backlog := backlogPush st.num_backlog st.alert_backlog info
                messages := st.messages ++ [(info.header ++ " " ++ info.text, MsgFlag.alert)] })

/-- The filtering loop of `Alertracker::Httpd_CreateStreamResponse`
(alertracker.cc:467-474): keep, in backlog order, the events whose
timestamp is strictly above the cursor. -/
def lastTimeLoop (since_time : Int) : List AlertEventInfo → List AlertEventInfo
  | [] => []
  | i :: rest =>
      if since_time < i.tm then i :: lastTimeLoop since_time rest
      else lastTimeLoop since_time rest

/-- The `last-time` response of `Alertracker::Httpd_CreateStreamResponse`
(alertracker.cc:449-477): the filtered events wrapped together with the
server's current time (`globalreg->timestamp.tv_sec`) as the new cursor. -/
def lastTimeResponse (st : State) (since_time now : Int) :
    List AlertEventInfo × Int :=
  (lastTimeLoop since_time st.alert_backlog, now)

/-- Modelled from the spec: `KIS_PHY_ANY` is a constant from a header
outside the sources; the category is "opaque to this core", so only that it
is some fixed value matters. -/
def KIS_PHY_ANY : Int := -1

/-- The tracker state as built by the constructor
(`Alertracker::Alertracker`, alertracker.cc:32-100) with backlog capacity
`cap`: empty maps and backlog, then the unrestricted KISMET alert type is
registered (line 95-96). -/
def initState (cap : Nat) : State :=
  (RegisterAlert
    { next_alert_id := 0, alert_name_map := [], alert_ref_map := []
      alert_backlog := [], num_backlog := cap, messages := [] }
    "KISMET" "Server events" sat_day 0 sat_day 0 KIS_PHY_ANY).2


/-! ## Sequences of public operations -/

/-- One complete public operation on the tracker: registration
(`RegisterAlert`), probe (`PotentialAlert`), dispatch (`RaiseAlert`) or a
query (`Httpd_CreateStreamResponse`, which reads but never writes tracker
state).  Each carries the wall-clock second at which it runs. -/
inductive Op where
  | register (header description : String) (unit : Nat) (rate : Int)
      (burstunit : Nat) (burst : Int) (phy : Int)
  | probe (ref : Nat) (now : Int)
  | raise (ref : Nat) (now : Int) (bssid source dest other : Nat)
      (channel text : String)
  | query (since now : Int)

/-- The state transition of one public operation (results discarded). -/
def applyOp (st : State) : Op → State
  | .register h d u r bu b p => (RegisterAlert st h d u r bu b p).2
  | .probe ref now => (PotentialAlert st ref now).2
  | .raise ref now b s dd o ch tx => (RaiseAlert st ref now b s dd o ch tx).2
  | .query _ _ => st

/-- Run a sequence of public operations left to right. -/
def runOps (st : State) (ops : List Op) : State := ops.foldl applyOp st

/-- The events an operation appends to the backlog: one event for an
accepted `RaiseAlert`, none otherwise. -/
def acceptedEvents (st : State) : Op → List AlertEventInfo
  | .raise ref now b s dd o ch tx =>
      match alookup st.alert_ref_map ref with
      | none => []
      | some arec =>
          let c := CheckTimes arec now
          if c.1 ≠ 1 then [] else [mkInfo c.2 now b s dd o ch tx]
  | _ => []

/-- The accepted events of a whole operation sequence, in acceptance
order. -/
def traceOf (st : State) : List Op → List AlertEventInfo
  | [] => []
  | op :: ops => acceptedEvents st op ++ traceOf (applyOp st op) ops

/-- The last `n` elements of a list (all of it when it is shorter). -/
def lastN {alpha : Type} (n : Nat) (l : List alpha) : List alpha :=
  l.drop (l.length - n)

/-- Iterated `PotentialAlert` calls, each at its own wall-clock second. -/
def probeMany (st : State) : List (Nat × Int) → State
  | [] => st
  | (ref, now) :: rest => probeMany (PotentialAlert st ref now).2 rest

/-- The caller-supplied arguments of one `RaiseAlert` call. -/
structure RaiseArgs where
  now : Int
  bssid : Nat
  source : Nat
  dest : Nat
  other : Nat
  channel : String
  text : String

/-- Iterated `RaiseAlert` calls against one ref, collecting the returned
codes. -/
def raiseMany (st : State) (ref : Nat) : List RaiseArgs → List Int × State
  | [] => ([], st)
  | a :: rest =>
      let r := RaiseAlert st ref a.now a.bssid a.source a.dest a.other a.channel a.text
      let rr := raiseMany r.2 ref rest
      (r.1 :: rr.1, rr.2)

/-! ## The counter-bound invariant (spec section 8, claim C7) -/

/-- Counters within limits, for a definition with positive limits. -/
def DefInv (d : AlertDef) : Prop :=
  0 < d.limit_rate → 0 < d.limit_burst →
    d.total_sent ≤ d.limit_rate ∧ d.burst_sent ≤ d.limit_burst

/-- Every registered definition satisfies `DefInv`. -/
def StInv (st : State) : Prop :=
  ∀ r d, alookup st.alert_ref_map r = some d → DefInv d

/-! ## Concrete states used by the claim-level witnesses and
counterexamples -/

/-- A definition one emission away from its limits, limit-per-second, last
emitted at time 0 (claim C1). -/
def dC1 : AlertDef :=
  { alert_ref := 7, header := "T1", description := "", limit_unit := sat_second
    limit_rate := 1, burst_unit := sat_second, limit_burst := 1, phy := 0
    time_last := 0, total_sent := 1, burst_sent := 1 }

/-- A tracker holding only `dC1` (claim C1). -/
def stC1 : State :=
  { next_alert_id := 8, alert_name_map := [("T1", 7)]
    alert_ref_map := [(7, dC1)], alert_backlog := [], num_backlog := 10
    messages := [] }

/-- `dC1` with both counters reset, as the probe leaves it (claim C1). -/
def dC1r : AlertDef := { dC1 with total_sent := 0, burst_sent := 0 }

/-- A definition with 3 of 5 sustained per minute used and its 2-per-second
burst full, last emitted at second 100 (claim C2). -/
def dC2 : AlertDef :=
  { alert_ref := 3, header := "T2", description := "", limit_unit := sat_minute
    limit_rate := 5, burst_unit := sat_second, limit_burst := 2, phy := 0
    time_last := 100, total_sent := 3, burst_sent := 2 }

/-- A definition with its 1-per-minute sustained budget and 1-per-second
burst budget both used, last emitted at second 100 (claim C4). -/
def dC4 : AlertDef :=
  { alert_ref := 5, header := "T4", description := "", limit_unit := sat_minute
    limit_rate := 1, burst_unit := sat_second, limit_burst := 1, phy := 0
    time_last := 100, total_sent := 1, burst_sent := 1 }

/-- A tracker holding only `dC4` (claim C4). -/
def stC4 : State :=
  { next_alert_id := 6, alert_name_map := [("T4", 5)]
    alert_ref_map := [(5, dC4)], alert_backlog := [], num_backlog := 10
    messages := [] }

/-- `dC4` after the burst-window reset done on the deny path (claim C4). -/
def dC4r : AlertDef := { dC4 with burst_sent := 0 }

/-- An unlimited definition, `sustainedLimit = 0` (claim C5). -/
def dC5 : AlertDef :=
  { alert_ref := 2, header := "T5", description := "", limit_unit := sat_day
    limit_rate := 0, burst_unit := sat_day, limit_burst := 0, phy := 0
    time_last := 0, total_sent := 0, burst_sent := 0 }

/-- A tracker holding only `dC5` (claim C5). -/
def stC5 : State :=
  { next_alert_id := 3, alert_name_map := [("T5", 2)]
    alert_ref_map := [(2, dC5)], alert_backlog := [], num_backlog := 10
    messages := [] }

/-- The definition created by registering header "B" with positive limits
on a fresh tracker (claim C7 witness). -/
def dC7w : AlertDef :=
  { alert_ref := 1, header := "B", description := "x"
    limit_unit := sat_minute, limit_rate := 1, burst_unit := sat_second
    limit_burst := 1, phy := 0, time_last := 0, total_sent := 0
    burst_sent := 0 }

/-- A backlog event with timestamp `t` (claim C9 witness). -/
def evC9 (t : Int) : AlertEventInfo :=
  { header := "T9", phy := 0, tm := t, bssid := 1, source := 2, dest := 3
    other := 4, channel := "6", text := "x" }

/-- A tracker whose backlog holds three events at strictly increasing
timestamps 3 < 5 < 8 (claim C9 witness). -/
def stC9 : State :=
  { next_alert_id := 1, alert_name_map := [("T9", 0)], alert_ref_map := []
    alert_backlog := [evC9 3, evC9 5, evC9 8], num_backlog := 10
    messages := [] }

/-- A definition with `sustainedLimit = 1` per minute and `burstLimit = 0`
per second, never fired (claim C10 witness). -/
def dC10 : AlertDef :=
  { alert_ref := 9, header := "TA", description := "", limit_unit := sat_minute
    limit_rate := 1, burst_unit := sat_second, limit_burst := 0, phy := 0
    time_last := 0, total_sent := 5, burst_sent := 7 }

/-! ## Association-list map lemmas -/

theorem alookup_ainsert {α β : Type} [DecidableEq α] (m : List (α × β))
    (k a : α) (v : β) :
    alookup (ainsert m k v) a = if k = a then some v else alookup m a := by
  induction m with
  | nil =>
      by_cases h : k = a <;> simp [ainsert, alookup, h]
  | cons p t ih =>
      obtain ⟨k', v'⟩ := p
      by_cases hk : k' = k
      · subst hk
        by_cases ha : k' = a <;> simp [ainsert, alookup, ha]
      · by_cases ha : k' = a
        · subst ha
          have hka : k ≠ k' := fun h => hk h.symm
          simp [ainsert, alookup, hk, hka]
        · simp [ainsert, alookup, hk, ha, ih]

/-! ## Structural lemmas about the rate-limit decision -/

/-- `CheckTimes` never touches `lastEmitTime`, the configured limits or the
descriptive fields, and each counter either keeps its value or is reset to
zero. -/
theorem CheckTimes_fields (d : AlertDef) (now : Int) :
    (CheckTimes d now).2.time_last = d.time_last ∧
    ((CheckTimes d now).2.total_sent = d.total_sent ∨
      (CheckTimes d now).2.total_sent = 0) ∧
    ((CheckTimes d now).2.burst_sent = d.burst_sent ∨
      (CheckTimes d now).2.burst_sent = 0) ∧
    (CheckTimes d now).2.limit_rate = d.limit_rate ∧
    (CheckTimes d now).2.limit_burst = d.limit_burst ∧
    (CheckTimes d now).2.limit_unit = d.limit_unit ∧
    (CheckTimes d now).2.burst_unit = d.burst_unit ∧
    (CheckTimes d now).2.alert_ref = d.alert_ref ∧
    (CheckTimes d now).2.header = d.header ∧
    (CheckTimes d now).2.description = d.description ∧
    (CheckTimes d now).2.phy = d.phy := by
  unfold CheckTimes
  simp only [apply_ite Prod.snd, ite_self]
  split_ifs <;> simp

/-- On the deny path `CheckTimes` leaves `total_sent` and `time_last`
untouched; `burst_sent` is either untouched or reset by the burst-window
check. -/
theorem CheckTimes_deny (d : AlertDef) (now : Int)
    (h : (CheckTimes d now).1 ≠ 1) :
    (CheckTimes d now).2.total_sent = d.total_sent ∧
    (CheckTimes d now).2.time_last = d.time_last ∧
    ((CheckTimes d now).2.burst_sent = d.burst_sent ∨
      (CheckTimes d now).2.burst_sent = 0) := by
  unfold CheckTimes at h ⊢
  simp only [apply_ite Prod.fst, apply_ite Prod.snd, ite_self] at h ⊢
  split_ifs at h ⊢ <;> simp_all

/-- Whenever `CheckTimes` allows, committing with `recordEmit` keeps both
counters within positive limits: the decision either saw both counters
strictly below their limits or had just reset them to zero. -/
theorem CheckTimes_commit_le (d : AlertDef) (now : Int)
    (h : (CheckTimes d now).1 = 1)
    (hrate : 0 < d.limit_rate) (hburst : 0 < d.limit_burst) :
    (recordEmit (CheckTimes d now).2 now).total_sent ≤ d.limit_rate ∧
    (recordEmit (CheckTimes d now).2 now).burst_sent ≤ d.limit_burst := by
  unfold CheckTimes at h ⊢
  simp only [apply_ite Prod.fst, apply_ite Prod.snd, ite_self] at h ⊢
  split_ifs at h ⊢ <;> simp_all [recordEmit] <;> omega


theorem DefInv_CheckTimes (d : AlertDef) (now : Int) (h : DefInv d) :
    DefInv (CheckTimes d now).2 := by
  intro hr hb
  obtain ⟨ht, htot, hbur, hr', hb', -⟩ := CheckTimes_fields d now
  rw [hr'] at hr
  rw [hb'] at hb
  have := h hr hb
  constructor
  · rcases htot with h' | h' <;> rw [h', hr'] <;> omega
  · rcases hbur with h' | h' <;> rw [h', hb'] <;> omega

theorem DefInv_commit (d : AlertDef) (now : Int)
    (h : (CheckTimes d now).1 = 1) :
    DefInv (recordEmit (CheckTimes d now).2 now) := by
  intro hr hb
  obtain ⟨-, -, -, hr', hb', -⟩ := CheckTimes_fields d now
  simp only [recordEmit] at hr hb ⊢
  rw [hr'] at hr ⊢
  rw [hb'] at hb ⊢
  exact CheckTimes_commit_le d now h hr hb

/-- Branch equation: probing an unknown ref. -/
theorem PotentialAlert_notfound (st : State) (ref : Nat) (now : Int)
    (hfind : alookup st.alert_ref_map ref = none) :
    PotentialAlert st ref now = (0, st) := by
  unfold PotentialAlert
  rw [hfind]

/-- Branch equation: probing a registered ref runs `CheckTimes` on the
shared record and stores the result back. -/
theorem PotentialAlert_found (st : State) (ref : Nat) (now : Int)
    (arec : AlertDef) (hfind : alookup st.alert_ref_map ref = some arec) :
    PotentialAlert st ref now =
      ((CheckTimes arec now).1,
       { st with alert_ref_map :=
          ainsert st.alert_ref_map ref (CheckTimes arec now).2 }) := by
  unfold PotentialAlert
  rw [hfind]

/-- Branch equation: raising an unknown ref. -/
theorem RaiseAlert_notfound (st : State) (ref : Nat) (now : Int)
    (b s dd o : Nat) (ch tx : String)
    (hfind : alookup st.alert_ref_map ref = none) :
    RaiseAlert st ref now b s dd o ch tx = (-1, st) := by
  unfold RaiseAlert
  rw [hfind]

/-- Branch equation: raising a registered ref. -/
theorem RaiseAlert_found (st : State) (ref : Nat) (now : Int)
    (b s dd o : Nat) (ch tx : String)
    (arec : AlertDef) (hfind : alookup st.alert_ref_map ref = some arec) :
    RaiseAlert st ref now b s dd o ch tx =
      (if (CheckTimes arec now).1 ≠ 1 then
        (0, { st with alert_ref_map :=
                ainsert st.alert_ref_map ref (CheckTimes arec now).2 })
      else
        (1, { st with
                alert_ref_map :=
                  ainsert st.alert_ref_map ref
                    (recordEmit (CheckTimes arec now).2 now)
                alert_backlog :=
                  backlogPush st.num_backlog st.alert_backlog
                    (mkInfo (CheckTimes arec now).2 now b s dd o ch tx)
                messages := st.messages ++
                  [((mkInfo (CheckTimes arec now).2 now b s dd o ch tx).header
                      ++ " " ++
                      (mkInfo (CheckTimes arec now).2 now b s dd o ch tx).text,
                    MsgFlag.alert)] })) := by
  unfold RaiseAlert
  rw [hfind]

/-- Branch equation: registering an already-present raw header. -/
theorem RegisterAlert_dup (st : State) (in_header in_description : String)
    (in_unit : Nat) (in_rate : Int) (in_burstunit : Nat) (in_burst : Int)
    (in_phy : Int) (hdup : (alookup st.alert_name_map in_header).isSome) :
    RegisterAlert st in_header in_description in_unit in_rate in_burstunit
        in_burst in_phy =
      (-1, { st with messages := st.messages ++
              [("Tried to re-register duplicate alert " ++ in_header,
                MsgFlag.error)] }) := by
  unfold RegisterAlert
  rw [if_pos hdup]

/-- Branch equation: registering with a burst unit coarser (after
clamping) than the sustained unit. -/
theorem RegisterAlert_badunits (st : State) (in_header in_description : String)
    (in_unit : Nat) (in_rate : Int) (in_burstunit : Nat) (in_burst : Int)
    (in_phy : Int) (hdup : ¬ (alookup st.alert_name_map in_header).isSome)
    (hcoarse : (if in_burstunit > sat_day then sat_day else in_burstunit) >
               (if in_unit > sat_day then sat_day else in_unit)) :
    RegisterAlert st in_header in_description in_unit in_rate in_burstunit
        in_burst in_phy =
      (-1, { st with messages := st.messages ++
              [("Failed to register alert " ++ in_header ++
                ", time unit for burst rate must be less than or equal to the time unit for the max rate",
                MsgFlag.error)] }) := by
  unfold RegisterAlert
  rw [if_neg hdup]
  simp only []
  rw [if_pos hcoarse]

/-- Branch equation: a successful registration. -/
theorem RegisterAlert_ok (st : State) (in_header in_description : String)
    (in_unit : Nat) (in_rate : Int) (in_burstunit : Nat) (in_burst : Int)
    (in_phy : Int) (hdup : ¬ (alookup st.alert_name_map in_header).isSome)
    (hcoarse : ¬ (if in_burstunit > sat_day then sat_day else in_burstunit) >
                 (if in_unit > sat_day then sat_day else in_unit)) :
    RegisterAlert st in_header in_description in_unit in_rate in_burstunit
        in_burst in_phy =
      ((st.next_alert_id : Int),
       { st with
          next_alert_id := st.next_alert_id + 1
          alert_name_map :=
            ainsert st.alert_name_map (StrUpper in_header) st.next_alert_id
          alert_ref_map :=
            ainsert st.alert_ref_map st.next_alert_id
              { alert_ref := st.next_alert_id
                header := StrUpper in_header
                description := in_description
                limit_unit := if in_unit > sat_day then sat_day else in_unit
                limit_rate := in_rate
                burst_unit :=
                  if in_burstunit > sat_day then sat_day else in_burstunit
                limit_burst := in_burst
                phy := in_phy
                time_last := 0
                total_sent := 0
                burst_sent := 0 } }) := by
  unfold RegisterAlert
  rw [if_neg hdup]
  simp only []
  rw [if_neg hcoarse]

theorem StInv_applyOp (st : State) (op : Op) (h : StInv st) :
    StInv (applyOp st op) := by
  cases op with
  | register hd de u r bu b p =>
      intro r' d' hl
      simp only [applyOp] at hl
      by_cases hdup : (alookup st.alert_name_map hd).isSome
      · rw [RegisterAlert_dup st hd de u r bu b p hdup] at hl
        exact h r' d' hl
      · by_cases hco : (if bu > sat_day then sat_day else bu) >
            (if u > sat_day then sat_day else u)
        · rw [RegisterAlert_badunits st hd de u r bu b p hdup hco] at hl
          exact h r' d' hl
        · rw [RegisterAlert_ok st hd de u r bu b p hdup hco] at hl
          simp only at hl
          rw [alookup_ainsert] at hl
          by_cases hk : st.next_alert_id = r'
          · rw [if_pos hk] at hl
            injection hl with hl
            subst hl
            intro hrr hbb
            exact ⟨le_of_lt hrr, le_of_lt hbb⟩
          · rw [if_neg hk] at hl
            exact h r' d' hl
  | probe ref now =>
      intro r' d' hl
      simp only [applyOp] at hl
      cases hfind : alookup st.alert_ref_map ref with
      | none =>
          rw [PotentialAlert_notfound st ref now hfind] at hl
          exact h r' d' hl
      | some arec =>
          rw [PotentialAlert_found st ref now arec hfind] at hl
          simp only at hl
          rw [alookup_ainsert] at hl
          split_ifs at hl with hk
          · injection hl with hl
            subst hl
            exact DefInv_CheckTimes arec now (h ref arec hfind)
          · exact h r' d' hl
  | raise ref now b s dd o ch tx =>
      intro r' d' hl
      simp only [applyOp] at hl
      cases hfind : alookup st.alert_ref_map ref with
      | none =>
          rw [RaiseAlert_notfound st ref now b s dd o ch tx hfind] at hl
          exact h r' d' hl
      | some arec =>
          rw [RaiseAlert_found st ref now b s dd o ch tx arec hfind] at hl
          by_cases hc : (CheckTimes arec now).1 ≠ 1
          · rw [if_pos hc] at hl
            simp only at hl
            rw [alookup_ainsert] at hl
            split_ifs at hl with hk
            · injection hl with hl
              subst hl
              exact DefInv_CheckTimes arec now (h ref arec hfind)
            · exact h r' d' hl
          · rw [if_neg hc] at hl
            simp only at hl
            rw [alookup_ainsert] at hl
            split_ifs at hl with hk
            · injection hl with hl
              subst hl
              push_neg at hc
              exact DefInv_commit arec now hc
            · exact h r' d' hl
  | query since now =>
      exact h

theorem StInv_runOps (st : State) (ops : List Op) (h : StInv st) :
    StInv (runOps st ops) := by
  induction ops generalizing st with
  | nil => exact h
  | cons op ops ih => exact ih (applyOp st op) (StInv_applyOp st op h)

theorem StInv_initState (cap : Nat) : StInv (initState cap) := by
  intro r d hl
  simp [initState, RegisterAlert, alookup, ainsert, StrUpper] at hl
  rcases hl with ⟨-, hl⟩
  cases hl
  intro hr hb
  simp at hr

/-! ## Backlog eviction (claim C3) -/

theorem applyOp_num_backlog (st : State) (op : Op) :
    (applyOp st op).num_backlog = st.num_backlog := by
  cases op with
  | register hd de u r bu b p =>
      simp only [applyOp]
      by_cases hdup : (alookup st.alert_name_map hd).isSome
      · rw [RegisterAlert_dup st hd de u r bu b p hdup]
      · by_cases hco : (if bu > sat_day then sat_day else bu) >
            (if u > sat_day then sat_day else u)
        · rw [RegisterAlert_badunits st hd de u r bu b p hdup hco]
        · rw [RegisterAlert_ok st hd de u r bu b p hdup hco]
  | probe ref now =>
      simp only [applyOp]
      cases hfind : alookup st.alert_ref_map ref with
      | none => rw [PotentialAlert_notfound st ref now hfind]
      | some arec => rw [PotentialAlert_found st ref now arec hfind]
  | raise ref now b s dd o ch tx =>
      simp only [applyOp]
      cases hfind : alookup st.alert_ref_map ref with
      | none => rw [RaiseAlert_notfound st ref now b s dd o ch tx hfind]
      | some arec =>
          rw [RaiseAlert_found st ref now b s dd o ch tx arec hfind]
          split_ifs <;> rfl
  | query since now => rfl

theorem applyOp_backlog (st : State) (op : Op) :
    (applyOp st op).alert_backlog =
      List.foldl (backlogPush st.num_backlog) st.alert_backlog
        (acceptedEvents st op) := by
  cases op with
  | register hd de u r bu b p =>
      simp only [applyOp, acceptedEvents, List.foldl_nil]
      by_cases hdup : (alookup st.alert_name_map hd).isSome
      · rw [RegisterAlert_dup st hd de u r bu b p hdup]
      · by_cases hco : (if bu > sat_day then sat_day else bu) >
            (if u > sat_day then sat_day else u)
        · rw [RegisterAlert_badunits st hd de u r bu b p hdup hco]
        · rw [RegisterAlert_ok st hd de u r bu b p hdup hco]
  | probe ref now =>
      simp only [applyOp, acceptedEvents, List.foldl_nil]
      cases hfind : alookup st.alert_ref_map ref with
      | none => rw [PotentialAlert_notfound st ref now hfind]
      | some arec => rw [PotentialAlert_found st ref now arec hfind]
  | raise ref now b s dd o ch tx =>
      simp only [applyOp, acceptedEvents]
      cases hfind : alookup st.alert_ref_map ref with
      | none =>
          rw [RaiseAlert_notfound st ref now b s dd o ch tx hfind]
          rfl
      | some arec =>
          rw [RaiseAlert_found st ref now b s dd o ch tx arec hfind]
          by_cases hc : (CheckTimes arec now).1 ≠ 1
          · rw [if_pos hc]
            simp [hc]
          · rw [if_neg hc]
            simp [hc]
  | query since now => rfl

theorem lastN_length_le {alpha : Type} (n : Nat) (l : List alpha) :
    (lastN n l).length ≤ n := by
  simp only [lastN, List.length_drop]
  omega

theorem backlogPush_lastN (n : Nat) (L : List AlertEventInfo)
    (e : AlertEventInfo) :
    backlogPush n (lastN n L) e = lastN n (L ++ [e]) := by
  simp only [backlogPush, lastN, List.length_append, List.length_cons,
    List.length_nil]
  have hd0 : L.drop (L.length - n) ++ [e] = (L ++ [e]).drop (L.length - n) :=
    (List.drop_append_of_le_length (by omega)).symm
  rw [hd0]
  by_cases hcase : n ≤ L.length
  · rw [if_pos (by simp only [List.length_drop, List.length_append,
      List.length_cons, List.length_nil]; omega)]
    rw [List.tail_drop]
    congr 1
    omega
  · rw [if_neg (by simp only [List.length_drop, List.length_append,
      List.length_cons, List.length_nil]; omega)]
    congr 1
    omega

theorem foldl_backlogPush_lastN (n : Nat) (es : List AlertEventInfo) :
    ∀ L, List.foldl (backlogPush n) (lastN n L) es = lastN n (L ++ es) := by
  induction es with
  | nil => intro L; simp
  | cons e es ih =>
      intro L
      simp only [List.foldl_cons]
      rw [backlogPush_lastN, ih (L ++ [e])]
      congr 1
      simp

theorem runOps_backlog (ops : List Op) :
    ∀ st L, st.alert_backlog = lastN st.num_backlog L →
      (runOps st ops).alert_backlog =
        lastN st.num_backlog (L ++ traceOf st ops) := by
  induction ops with
  | nil =>
      intro st L h
      simpa [runOps, traceOf] using h
  | cons op ops ih =>
      intro st L h
      have hnum := applyOp_num_backlog st op
      have hb : (applyOp st op).alert_backlog =
          lastN (applyOp st op).num_backlog (L ++ acceptedEvents st op) := by
        rw [hnum, applyOp_backlog, h, foldl_backlogPush_lastN]
      have hrec := ih (applyOp st op) (L ++ acceptedEvents st op) hb
      show (runOps (applyOp st op) ops).alert_backlog = _
      rw [hrec, hnum, List.append_assoc]
      rfl

theorem initState_num_backlog (cap : Nat) :
    (initState cap).num_backlog = cap := rfl

theorem initState_backlog (cap : Nat) :
    (initState cap).alert_backlog = [] := rfl

/-! ## The time-cursor query (claim C9) -/

theorem lastTimeLoop_filter (t : Int) (l : List AlertEventInfo) :
    lastTimeLoop t l = l.filter (fun e => decide (t < e.tm)) := by
  induction l with
  | nil => rfl
  | cons a rest ih =>
      by_cases h : t < a.tm <;>
        simp [lastTimeLoop, List.filter_cons, h, ih]

theorem lastTimeLoop_all (t : Int) (l : List AlertEventInfo)
    (h : ∀ x ∈ l, t < x.tm) : lastTimeLoop t l = l := by
  induction l with
  | nil => rfl
  | cons a rest ih =>
      rw [lastTimeLoop, if_pos (h a (by simp)), ih]
      intro x hx
      exact h x (by simp [hx])

theorem lastTimeLoop_sorted_drop (l : List AlertEventInfo)
    (hs : l.Pairwise (fun a b => a.tm < b.tm)) :
    ∀ (k : Nat) (hk : k < l.length),
      lastTimeLoop ((l.get ⟨k, hk⟩).tm) l = l.drop (k + 1) := by
  induction l with
  | nil =>
      intro k hk
      simp at hk
  | cons a rest ih =>
      intro k hk
      obtain ⟨hhead, htail⟩ := List.pairwise_cons.mp hs
      cases k with
      | zero =>
          show lastTimeLoop a.tm (a :: rest) = rest.drop 0
          rw [lastTimeLoop, if_neg (by omega), lastTimeLoop_all a.tm rest hhead,
            List.drop_zero]
      | succ k =>
          have hk' : k < rest.length := by simpa using hk
          have hlt : a.tm < (rest.get ⟨k, hk'⟩).tm :=
            hhead _ (List.get_mem rest k hk')
          show lastTimeLoop ((rest.get ⟨k, hk'⟩).tm) (a :: rest) =
            rest.drop (k + 1)
          rw [lastTimeLoop, if_neg (by omega)]
          exact ih htail k hk'

/-! ## Probe iteration (claim C1) -/

/-- One probe leaves every stored definition's `lastEmitTime` alone and
either keeps or zeroes each counter. -/
theorem PotentialAlert_defs (st : State) (ref : Nat) (now : Int)
    (r' : Nat) (d' : AlertDef)
    (h : alookup (PotentialAlert st ref now).2.alert_ref_map r' = some d') :
    ∃ d, alookup st.alert_ref_map r' = some d ∧
      d'.time_last = d.time_last ∧
      (d'.total_sent = d.total_sent ∨ d'.total_sent = 0) ∧
      (d'.burst_sent = d.burst_sent ∨ d'.burst_sent = 0) := by
  cases hfind : alookup st.alert_ref_map ref with
  | none =>
      rw [PotentialAlert_notfound st ref now hfind] at h
      exact ⟨d', h, rfl, Or.inl rfl, Or.inl rfl⟩
  | some arec =>
      rw [PotentialAlert_found st ref now arec hfind] at h
      simp only at h
      rw [alookup_ainsert] at h
      by_cases hk : ref = r'
      · rw [if_pos hk] at h
        injection h with h
        subst h
        subst hk
        obtain ⟨ht, htot, hbur, -⟩ := CheckTimes_fields arec now
        exact ⟨arec, hfind, ht, htot, hbur⟩
      · rw [if_neg hk] at h
        exact ⟨d', h, rfl, Or.inl rfl, Or.inl rfl⟩

/-- Any number of successive probes: `lastEmitTime` is untouched and each
counter is either its original value or zero. -/
theorem probeMany_defs (calls : List (Nat × Int)) :
    ∀ st r' d',
      alookup (probeMany st calls).alert_ref_map r' = some d' →
      ∃ d, alookup st.alert_ref_map r' = some d ∧
        d'.time_last = d.time_last ∧
        (d'.total_sent = d.total_sent ∨ d'.total_sent = 0) ∧
        (d'.burst_sent = d.burst_sent ∨ d'.burst_sent = 0) := by
  induction calls with
  | nil =>
      intro st r' d' h
      exact ⟨d', h, rfl, Or.inl rfl, Or.inl rfl⟩
  | cons c rest ih =>
      intro st r' d' h
      obtain ⟨ref, now⟩ := c
      have h1 : alookup (probeMany (PotentialAlert st ref now).2 rest).alert_ref_map r'
          = some d' := h
      obtain ⟨dm, hm, hmt, hmtot, hmbur⟩ :=
        ih (PotentialAlert st ref now).2 r' d' h1
      obtain ⟨d0, h0, h0t, h0tot, h0bur⟩ :=
        PotentialAlert_defs st ref now r' dm hm
      refine ⟨d0, h0, by omega, ?_, ?_⟩
      · rcases hmtot with h' | h' <;> rcases h0tot with h'' | h'' <;> omega
      · rcases hmbur with h' | h' <;> rcases h0bur with h'' | h'' <;> omega

/-! ## Unlimited definitions (claim C5) -/

theorem CheckTimes_rate0 (d : AlertDef) (now : Int) (h : d.limit_rate = 0) :
    CheckTimes d now = (1, d) := by
  unfold CheckTimes
  rw [if_pos h]

/-- Iterated `RaiseAlert` against a definition with `sustainedLimit = 0`:
every call returns 1 (Created) and both counters grow by one per call. -/
theorem raiseMany_rate0 (calls : List RaiseArgs) :
    ∀ st ref d, alookup st.alert_ref_map ref = some d → d.limit_rate = 0 →
      (raiseMany st ref calls).1 = List.replicate calls.length 1 ∧
      ∃ d', alookup (raiseMany st ref calls).2.alert_ref_map ref = some d' ∧
        d'.limit_rate = 0 ∧
        d'.total_sent = d.total_sent + calls.length ∧
        d'.burst_sent = d.burst_sent + calls.length := by
  induction calls with
  | nil =>
      intro st ref d h h0
      exact ⟨rfl, d, h, h0, by simp, by simp⟩
  | cons a rest ih =>
      intro st ref d h h0
      have hct : CheckTimes d a.now = (1, d) := CheckTimes_rate0 d a.now h0
      have hra : RaiseAlert st ref a.now a.bssid a.source a.dest a.other
            a.channel a.text =
          (1, { st with
                  alert_ref_map :=
                    ainsert st.alert_ref_map ref (recordEmit d a.now)
                  alert_backlog :=
                    backlogPush st.num_backlog st.alert_backlog
                      (mkInfo d a.now a.bssid a.source a.dest a.other
                        a.channel a.text)
                  messages := st.messages ++
                    [((mkInfo d a.now a.bssid a.source a.dest a.other
                          a.channel a.text).header ++ " " ++
                        (mkInfo d a.now a.bssid a.source a.dest a.other
                          a.channel a.text).text,
                      MsgFlag.alert)] }) := by
        rw [RaiseAlert_found st ref a.now a.bssid a.source a.dest a.other
          a.channel a.text d h, hct]
        simp
      have hlook : alookup (ainsert st.alert_ref_map ref (recordEmit d a.now))
          ref = some (recordEmit d a.now) := by
        rw [alookup_ainsert, if_pos rfl]
      have hrate : (recordEmit d a.now).limit_rate = 0 := h0
      obtain ⟨h1, d', h2, h3, h4, h5⟩ :=
        ih (RaiseAlert st ref a.now a.bssid a.source a.dest a.other
            a.channel a.text).2 ref (recordEmit d a.now)
          (by rw [hra]; exact hlook) hrate
      constructor
      · show (RaiseAlert st ref a.now a.bssid a.source a.dest a.other
            a.channel a.text).1 ::
          (raiseMany (RaiseAlert st ref a.now a.bssid a.source a.dest a.other
            a.channel a.text).2 ref rest).1 =
          List.replicate (a :: rest).length 1
        simp only [List.length_cons, List.replicate_succ]
        congr 1
        rw [hra]
      · refine ⟨d', h2, h3, ?_, ?_⟩
        · simp only [recordEmit] at h4
          simp only [List.length_cons]
          push_cast at h4 ⊢
          omega
        · simp only [recordEmit] at h5
          simp only [List.length_cons]
          push_cast at h5 ⊢
          omega

/-! ## Claim theorems -/

/-- Claim C1, counterexample: probing `dC1` at time 10 (its per-second
window long elapsed) resets both counters from 1 to 0 — `PotentialAlert`
is not free of side effects on the registry. -/
theorem claim_C1_counterexample :
    (alookup stC1.alert_ref_map 7).map AlertDef.total_sent = some 1 ∧
    (alookup stC1.alert_ref_map 7).map AlertDef.burst_sent = some 1 ∧
    (alookup (PotentialAlert stC1 7 10).2.alert_ref_map 7).map
      AlertDef.total_sent = some 0 ∧
    (alookup (PotentialAlert stC1 7 10).2.alert_ref_map 7).map
      AlertDef.burst_sent = some 0 := by decide

/-- Claim C1, as amended: for every registered ref and any number of
successive `PotentialAlert` calls, every definition's `lastEmitTime` is
unchanged, and each of `sustainedCount` and `burstCount` is either
unchanged or reset to 0 by the lazy window maintenance inside the probe's
`CheckTimes`; the probe never increments anything. -/
theorem claim_C1_amended (st : State) (calls : List (Nat × Int))
    (r' : Nat) (d' : AlertDef)
    (h : alookup (probeMany st calls).alert_ref_map r' = some d') :
    ∃ d, alookup st.alert_ref_map r' = some d ∧
      d'.time_last = d.time_last ∧
      (d'.total_sent = d.total_sent ∨ d'.total_sent = 0) ∧
      (d'.burst_sent = d.burst_sent ∨ d'.burst_sent = 0) :=
  probeMany_defs calls st r' d' h

/-- Claim C1, witness: two successive probes of `dC1` at time 10 leave the
record at `dC1r` (counters zeroed, `lastEmitTime` untouched). -/
theorem claim_C1_witness :
    ∃ d, alookup stC1.alert_ref_map 7 = some d ∧
      dC1r.time_last = d.time_last ∧
      (dC1r.total_sent = d.total_sent ∨ dC1r.total_sent = 0) ∧
      (dC1r.burst_sent = d.burst_sent ∨ dC1r.burst_sent = 0) :=
  claim_C1_amended stC1 [(7, 10), (7, 10)] 7 dC1r (by decide)

/-- Claim C2, counterexample: for `dC2` (burst unit = second) a call at
time 101, exactly 1 second after `lastEmitTime = 100`, satisfies
`now - lastEmitTime >= duration(burstUnit)` and `sustainedCount <
sustainedLimit`, yet `CheckTimes` neither resets the burst counter nor
allows the event: the source's window comparison is strict
(`time_last < now - duration`), so the boundary instant stays in the
plain limit check and is denied. -/
theorem claim_C2_counterexample :
    alert_time_unit_conv dC2.burst_unit ≤ 101 - dC2.time_last ∧
    dC2.total_sent < dC2.limit_rate ∧
    CheckTimes dC2 101 = (0, dC2) := by decide

/-- Claim C2, as amended: for `sustainedLimit ≠ 0`, the sustained window
resets (both counters zeroed, event allowed) exactly when
`now - lastEmitTime > duration(sustainedUnit)`; otherwise the burst
counter resets exactly when `now - lastEmitTime > duration(burstUnit)`
(strictly more than the duration, not at it), after which the event is
allowed iff the post-reset burst count (0) is below `burstLimit` and
`sustainedCount < sustainedLimit`; otherwise both counters keep their
values and the event is allowed iff both are strictly below their
limits.  In particular a call made exactly 1 second after `lastEmitTime`
with `burstUnit` = second does not fall into the burst-reset branch. -/
theorem claim_C2_amended (d : AlertDef) (now : Int)
    (h0 : d.limit_rate ≠ 0) :
    (alert_time_unit_conv d.limit_unit < now - d.time_last →
      CheckTimes d now = (1, { d with total_sent := 0, burst_sent := 0 })) ∧
    (¬ alert_time_unit_conv d.limit_unit < now - d.time_last →
     alert_time_unit_conv d.burst_unit < now - d.time_last →
      CheckTimes d now =
        (if 0 < d.limit_burst ∧ d.total_sent < d.limit_rate then 1 else 0,
         { d with burst_sent := 0 })) ∧
    (¬ alert_time_unit_conv d.limit_unit < now - d.time_last →
     ¬ alert_time_unit_conv d.burst_unit < now - d.time_last →
      CheckTimes d now =
        (if d.burst_sent < d.limit_burst ∧ d.total_sent < d.limit_rate
          then 1 else 0,
         d)) := by
  refine ⟨?_, ?_, ?_⟩
  · intro h1
    have hs : d.time_last < now - alert_time_unit_conv d.limit_unit := by
      omega
    unfold CheckTimes
    rw [if_neg h0, if_pos hs]
  · intro h1 h2
    have hs : ¬ d.time_last < now - alert_time_unit_conv d.limit_unit := by
      omega
    have hb : d.time_last < now - alert_time_unit_conv d.burst_unit := by
      omega
    unfold CheckTimes
    rw [if_neg h0, if_neg hs]
    simp only [hb, if_true, ite_true]
    by_cases hcond : 0 < d.limit_burst ∧ d.total_sent < d.limit_rate <;>
      simp [hcond]
  · intro h1 h2
    have hs : ¬ d.time_last < now - alert_time_unit_conv d.limit_unit := by
      omega
    have hb : ¬ d.time_last < now - alert_time_unit_conv d.burst_unit := by
      omega
    unfold CheckTimes
    rw [if_neg h0, if_neg hs]
    simp only [hb, if_false, ite_false]
    by_cases hcond : d.burst_sent < d.limit_burst ∧
        d.total_sent < d.limit_rate <;> simp [hcond]

/-- Claim C2, witness: at time 101 (exactly one second past the last
emission) `dC2` stays in the no-reset branch and is denied; at time 102
(strictly past the one-second burst window) the burst counter is reset
and the decision is taken on `0 < burstLimit ∧ sustainedCount <
sustainedLimit`. -/
theorem claim_C2_witness :
    CheckTimes dC2 101 =
      (if dC2.burst_sent < dC2.limit_burst ∧ dC2.total_sent < dC2.limit_rate
        then 1 else 0,
       dC2) ∧
    CheckTimes dC2 102 =
      (if 0 < dC2.limit_burst ∧ dC2.total_sent < dC2.limit_rate then 1 else 0,
       { dC2 with burst_sent := 0 }) :=
  ⟨(claim_C2_amended dC2 101 (by decide)).2.2 (by decide) (by decide),
   (claim_C2_amended dC2 102 (by decide)).2.1 (by decide) (by decide)⟩

/-- Claim C3 (confirmed): for every capacity and every operation sequence
run from the freshly constructed tracker, the backlog equals the last
`cap` accepted events in acceptance order (so after `k > cap` accepted
events exactly the `(k - cap + 1)`-th through `k`-th accepted events are
retained, oldest first, each overflow evicting exactly the oldest entry),
and its length never exceeds the configured capacity. -/
theorem claim_C3 (cap : Nat) (ops : List Op) :
    (runOps (initState cap) ops).alert_backlog =
      lastN cap (traceOf (initState cap) ops) ∧
    (runOps (initState cap) ops).alert_backlog.length ≤ cap := by
  have h := runOps_backlog ops (initState cap) []
    (by rw [initState_backlog]; simp [lastN])
  rw [initState_num_backlog] at h
  simp only [List.nil_append] at h
  exact ⟨h, by rw [h]; exact lastN_length_le cap _⟩

/-- Claim C4, counterexample: raising `dC4` at time 102 is suppressed
(returns 0), yet the definition's `burstCount` is reset from 1 to 0 by the
burst-window check inside the probe — "no counters change" fails. -/
theorem claim_C4_counterexample :
    (RaiseAlert stC4 5 102 0 0 0 0 "c" "t").1 = 0 ∧
    (alookup stC4.alert_ref_map 5).map AlertDef.burst_sent = some 1 ∧
    (alookup (RaiseAlert stC4 5 102 0 0 0 0 "c" "t").2.alert_ref_map 5).map
      AlertDef.burst_sent = some 0 := by decide

/-- Claim C4, as amended: when `RaiseAlert` returns Suppressed (0), no
event is appended (the backlog is unchanged), no message-bus notification
is emitted, and every definition's `lastEmitTime` and `sustainedCount`
are unchanged; `burstCount` is either unchanged or reset to 0 by the
burst-window maintenance of the failed check. -/
theorem claim_C4_amended (st : State) (ref : Nat) (now : Int)
    (b s dd o : Nat) (ch tx : String)
    (h : (RaiseAlert st ref now b s dd o ch tx).1 = 0) :
    (RaiseAlert st ref now b s dd o ch tx).2.alert_backlog =
      st.alert_backlog ∧
    (RaiseAlert st ref now b s dd o ch tx).2.messages = st.messages ∧
    ∀ r' d',
      alookup (RaiseAlert st ref now b s dd o ch tx).2.alert_ref_map r' =
        some d' →
      ∃ d, alookup st.alert_ref_map r' = some d ∧
        d'.time_last = d.time_last ∧ d'.total_sent = d.total_sent ∧
        (d'.burst_sent = d.burst_sent ∨ d'.burst_sent = 0) := by
  cases hfind : alookup st.alert_ref_map ref with
  | none =>
      rw [RaiseAlert_notfound st ref now b s dd o ch tx hfind] at h
      simp at h
  | some arec =>
      by_cases hc : (CheckTimes arec now).1 ≠ 1
      · rw [RaiseAlert_found st ref now b s dd o ch tx arec hfind, if_pos hc]
        refine ⟨rfl, rfl, ?_⟩
        intro r' d' hl
        simp only at hl
        rw [alookup_ainsert] at hl
        by_cases hk : ref = r'
        · rw [if_pos hk] at hl
          injection hl with hl
          subst hl
          subst hk
          obtain ⟨h1, h2, h3⟩ := CheckTimes_deny arec now hc
          exact ⟨arec, hfind, h2, h1, h3⟩
        · rw [if_neg hk] at hl
          exact ⟨d', hl, rfl, rfl, Or.inl rfl⟩
      · rw [RaiseAlert_found st ref now b s dd o ch tx arec hfind,
          if_neg hc] at h
        simp at h

/-- Claim C4, witness: the suppressed raise of `dC4` at 102 keeps the
backlog, and the stored record `dC4r` differs from `dC4` only by the
burst reset. -/
theorem claim_C4_witness :
    (RaiseAlert stC4 5 102 0 0 0 0 "c" "t").2.alert_backlog =
      stC4.alert_backlog ∧
    ∃ d, alookup stC4.alert_ref_map 5 = some d ∧
      dC4r.time_last = d.time_last ∧ dC4r.total_sent = d.total_sent ∧
      (dC4r.burst_sent = d.burst_sent ∨ dC4r.burst_sent = 0) :=
  ⟨(claim_C4_amended stC4 5 102 0 0 0 0 "c" "t" (by decide)).1,
   (claim_C4_amended stC4 5 102 0 0 0 0 "c" "t" (by decide)).2.2 5 dC4r
     (by decide)⟩

/-- Claim C5, counterexample: with `sustainedLimit = 0` a raise is
accepted, but the commit step still increments both counters (0 → 1):
"counters remain untouched" fails on `RaiseAlert` (only the probe leaves
them alone). -/
theorem claim_C5_counterexample :
    (RaiseAlert stC5 2 50 0 0 0 0 "c" "t").1 = 1 ∧
    (alookup stC5.alert_ref_map 2).map AlertDef.total_sent = some 0 ∧
    (alookup (RaiseAlert stC5 2 50 0 0 0 0 "c" "t").2.alert_ref_map 2).map
      AlertDef.total_sent = some 1 ∧
    (alookup (RaiseAlert stC5 2 50 0 0 0 0 "c" "t").2.alert_ref_map 2).map
      AlertDef.burst_sent = some 1 := by decide

/-- Claim C5, as amended: for a definition with `sustainedLimit = 0`,
every `RaiseAlert` call returns Created (1) regardless of count or
timing — the probe allows unconditionally — but each accepted call's
commit increments `sustainedCount` and `burstCount` by one, so after `k`
calls both counters have grown by `k` rather than staying untouched. -/
theorem claim_C5_amended (st : State) (ref : Nat) (d : AlertDef)
    (calls : List RaiseArgs)
    (h : alookup st.alert_ref_map ref = some d) (h0 : d.limit_rate = 0) :
    (raiseMany st ref calls).1 = List.replicate calls.length 1 ∧
    ∃ d', alookup (raiseMany st ref calls).2.alert_ref_map ref = some d' ∧
      d'.limit_rate = 0 ∧
      d'.total_sent = d.total_sent + calls.length ∧
      d'.burst_sent = d.burst_sent + calls.length :=
  raiseMany_rate0 calls st ref d h h0

/-- Claim C5, witness: two raises of the unlimited `dC5` both return 1 and
leave the counters at 2. -/
theorem claim_C5_witness :
    (raiseMany stC5 2
        [⟨50, 0, 0, 0, 0, "c", "t"⟩, ⟨60, 0, 0, 0, 0, "c", "t"⟩]).1 =
      List.replicate 2 1 ∧
    ∃ d', alookup (raiseMany stC5 2
        [⟨50, 0, 0, 0, 0, "c", "t"⟩, ⟨60, 0, 0, 0, 0, "c", "t"⟩]).2.alert_ref_map
        2 = some d' ∧
      d'.limit_rate = 0 ∧
      d'.total_sent = dC5.total_sent + 2 ∧
      d'.burst_sent = dC5.burst_sent + 2 :=
  claim_C5_amended stC5 2 dC5
    [⟨50, 0, 0, 0, 0, "c", "t"⟩, ⟨60, 0, 0, 0, 0, "c", "t"⟩]
    (by decide) (by decide)

/-- Claim C6 (code bug): registering the lowercase header "a" twice with
valid limits succeeds both times — the duplicate check looks the raw
header up in a map keyed by the uppercased header, so the second call
returns a fresh ref 2 (not -1), bumps the sequential id to 3, creates a
second definition and silently repoints the name-map entry "A" to it,
contradicting the "Bail if this header is registered" intent. -/
theorem claim_C6_bug :
    (RegisterAlert (initState 10) "a" "first" sat_second 1 sat_second 1
      0).1 = 1 ∧
    (RegisterAlert (RegisterAlert (initState 10) "a" "first" sat_second 1
      sat_second 1 0).2 "a" "second" sat_second 1 sat_second 1 0).1 = 2 ∧
    (RegisterAlert (RegisterAlert (initState 10) "a" "first" sat_second 1
      sat_second 1 0).2 "a" "second" sat_second 1 sat_second 1
      0).2.next_alert_id = 3 ∧
    alookup (RegisterAlert (RegisterAlert (initState 10) "a" "first"
      sat_second 1 sat_second 1 0).2 "a" "second" sat_second 1 sat_second 1
      0).2.alert_name_map "A" = some 2 := by decide

/-- Claim C7, counterexample: `RegisterAlert` validates no rates, so a
definition registered with `sustainedLimit = 1` and `burstLimit = -1`
(both nonzero) violates `burstCount ≤ burstLimit` immediately after the
registration operation completes. -/
theorem claim_C7_counterexample :
    (alookup (runOps (initState 10)
        [Op.register "X" "desc" sat_second 1 sat_second (-1) 0]).alert_ref_map
        1).map
      (fun d => decide (d.limit_rate ≠ 0 ∧ d.limit_burst ≠ 0 ∧
        ¬ (d.total_sent ≤ d.limit_rate ∧ d.burst_sent ≤ d.limit_burst)))
      = some true := by decide

/-- Claim C7, as amended: for every registered definition whose
`sustainedLimit` and `burstLimit` are both positive,
`sustainedCount ≤ sustainedLimit` and `burstCount ≤ burstLimit` hold
after every complete public operation, for all operation sequences from
the freshly constructed tracker. -/
theorem claim_C7_amended (cap : Nat) (ops : List Op) (r : Nat)
    (d : AlertDef)
    (h : alookup (runOps (initState cap) ops).alert_ref_map r = some d)
    (hrate : 0 < d.limit_rate) (hburst : 0 < d.limit_burst) :
    d.total_sent ≤ d.limit_rate ∧ d.burst_sent ≤ d.limit_burst :=
  StInv_runOps (initState cap) ops (StInv_initState cap) r d h hrate hburst

/-- Claim C7, witness: after registering header "B" with limits 1/minute
and 1/second the stored definition `dC7w` satisfies both bounds. -/
theorem claim_C7_witness :
    dC7w.total_sent ≤ dC7w.limit_rate ∧ dC7w.burst_sent ≤ dC7w.limit_burst :=
  claim_C7_amended 10 [Op.register "B" "x" sat_minute 1 sat_second 1 0] 1
    dC7w (by decide) (by decide) (by decide)

/-- Claim C8 (confirmed): whenever the clamped burst unit is coarser than
the clamped sustained unit, `RegisterAlert` returns the -1 sentinel and
leaves the definition registry, the name map and the next sequential ref
unchanged (whether or not the header was already taken). -/
theorem claim_C8 (st : State) (in_header in_description : String)
    (in_unit : Nat) (in_rate : Int) (in_burstunit : Nat) (in_burst : Int)
    (in_phy : Int)
    (hcoarse : (if in_burstunit > sat_day then sat_day else in_burstunit) >
               (if in_unit > sat_day then sat_day else in_unit)) :
    (RegisterAlert st in_header in_description in_unit in_rate in_burstunit
      in_burst in_phy).1 = -1 ∧
    (RegisterAlert st in_header in_description in_unit in_rate in_burstunit
      in_burst in_phy).2.alert_ref_map = st.alert_ref_map ∧
    (RegisterAlert st in_header in_description in_unit in_rate in_burstunit
      in_burst in_phy).2.alert_name_map = st.alert_name_map ∧
    (RegisterAlert st in_header in_description in_unit in_rate in_burstunit
      in_burst in_phy).2.next_alert_id = st.next_alert_id := by
  by_cases hdup : (alookup st.alert_name_map in_header).isSome
  · rw [RegisterAlert_dup st in_header in_description in_unit in_rate
      in_burstunit in_burst in_phy hdup]
    exact ⟨rfl, rfl, rfl, rfl⟩
  · rw [RegisterAlert_badunits st in_header in_description in_unit in_rate
      in_burstunit in_burst in_phy hdup hcoarse]
    exact ⟨rfl, rfl, rfl, rfl⟩

/-- Claim C8, witness: registering burst-per-day under sustained-per-minute
on the fresh tracker is rejected with -1 and changes nothing. -/
theorem claim_C8_witness :
    (RegisterAlert (initState 10) "NEWA" "d" sat_minute 2 sat_day 1 0).1 =
      -1 ∧
    (RegisterAlert (initState 10) "NEWA" "d" sat_minute 2 sat_day 1
      0).2.alert_ref_map = (initState 10).alert_ref_map ∧
    (RegisterAlert (initState 10) "NEWA" "d" sat_minute 2 sat_day 1
      0).2.alert_name_map = (initState 10).alert_name_map ∧
    (RegisterAlert (initState 10) "NEWA" "d" sat_minute 2 sat_day 1
      0).2.next_alert_id = (initState 10).next_alert_id :=
  claim_C8 (initState 10) "NEWA" "d" sat_minute 2 sat_day 1 0 (by decide)

/-- Claim C9 (confirmed): the `last-time` query returns exactly the
backlog events with timestamp strictly greater than the cursor, in
backlog order, wrapped with the server's current time as the new cursor;
when the backlog timestamps are strictly increasing, querying with the
`k`-th event's timestamp returns exactly the events after position `k`. -/
theorem claim_C9 (st : State) (t now : Int) (k : Nat)
    (hk : k < st.alert_backlog.length)
    (hsort : st.alert_backlog.Pairwise (fun a b => a.tm < b.tm)) :
    lastTimeResponse st t now =
      (st.alert_backlog.filter (fun e => decide (t < e.tm)), now) ∧
    lastTimeResponse st ((st.alert_backlog.get ⟨k, hk⟩).tm) now =
      (st.alert_backlog.drop (k + 1), now) := by
  constructor
  · unfold lastTimeResponse
    rw [lastTimeLoop_filter]
  · unfold lastTimeResponse
    rw [lastTimeLoop_sorted_drop st.alert_backlog hsort k hk]

/-- Claim C9, witness: on a backlog with timestamps 3 < 5 < 8, the cursor
query at the second event's timestamp (5) returns exactly the third
event, and the generic filter shape holds for cursor 0. -/
theorem claim_C9_witness :
    lastTimeResponse stC9 0 99 =
      (stC9.alert_backlog.filter (fun e => decide ((0 : Int) < e.tm)), 99) ∧
    lastTimeResponse stC9 ((stC9.alert_backlog.get ⟨1, by decide⟩).tm) 99 =
      (stC9.alert_backlog.drop 2, 99) :=
  claim_C9 stC9 0 99 1 (by decide) (by decide)

/-- Claim C10 (confirmed, implicit): once the sustained window has
elapsed (`now - lastEmitTime` strictly above the sustained duration, the
source's test) and `sustainedLimit ≠ 0`, `CheckTimes` allows without
consulting either limit; hence a definition with `burstLimit = 0` still
accepts the event, its committed `burstCount` (= 1) exceeds
`burstLimit`, and every further call within the sustained window is
denied — exactly one event per sustained window. -/
theorem claim_C10 (d : AlertDef) (now : Int) (h0 : d.limit_rate ≠ 0)
    (helapsed : alert_time_unit_conv d.limit_unit < now - d.time_last) :
    (CheckTimes d now).1 = 1 ∧
    (d.limit_burst = 0 →
      (recordEmit (CheckTimes d now).2 now).burst_sent = 1 ∧
      (recordEmit (CheckTimes d now).2 now).limit_burst <
        (recordEmit (CheckTimes d now).2 now).burst_sent ∧
      ∀ now' : Int,
        ¬ alert_time_unit_conv d.limit_unit <
            now' - (recordEmit (CheckTimes d now).2 now).time_last →
        (CheckTimes (recordEmit (CheckTimes d now).2 now) now').1 = 0) := by
  have hs : d.time_last < now - alert_time_unit_conv d.limit_unit := by omega
  have hct : CheckTimes d now =
      (1, { d with total_sent := 0, burst_sent := 0 }) := by
    unfold CheckTimes
    rw [if_neg h0, if_pos hs]
  refine ⟨by rw [hct], ?_⟩
  intro hb
  refine ⟨by rw [hct]; simp [recordEmit],
    by rw [hct]; simp [recordEmit, hb], ?_⟩
  intro now' hw
  rw [hct] at hw ⊢
  simp only [recordEmit] at hw ⊢
  unfold CheckTimes
  simp only [apply_ite Prod.fst, ite_self]
  split_ifs <;> (simp_all; try omega)

/-- Claim C10, witness: `dC10` (limit 1/minute, burst limit 0, never
fired) is accepted at second 1000 and, after the commit, a further call
at 1030 — inside the minute window — is denied. -/
theorem claim_C10_witness :
    (CheckTimes dC10 1000).1 = 1 ∧
    (CheckTimes (recordEmit (CheckTimes dC10 1000).2 1000) 1030).1 = 0 := by
  have h := claim_C10 dC10 1000 (by decide) (by decide)
  exact ⟨h.1, (h.2 (by decide)).2.2 1030 (by decide)⟩

end Alertracker
